import Mathlib

/-!
# Guardian AI — formal model of the decision engine and frontend

A shallow embedding of the Guardian AI repository.  The learning-augmented
ski-rental decision engine (Guarantee Calculator, ski-rental strategy,
Performance Tracker) is described by the specification but its backend
implementation is not among the provided files, so those components are
modelled from the specification, as marked on each definition.  The React
frontend components (`api.js`, the two `Dashboard`s, the two
`PerformanceChart`s) are present in the sources and are embedded from them.

Numbers are modelled as rationals.
-/

namespace GuardianAI

/-! ## Guarantee Calculator (spec §4.3) -/

/-- Modelled from the spec: the uncertainty inflation term `f` of the
Guarantee Calculator; the backend implementation is absent from the provided
files.  The spec requires `f` monotonically non-decreasing with `f 0 = 0`
and describes the inflation as "uncertainty-proportional"; we take the
proportionality coefficient to be `1`, i.e. `f` is the identity. -/
def uncertainty_penalty (uncertainty : ℚ) : ℚ := uncertainty

/-- Modelled from the spec: the Guarantee Calculator, absent from the
provided files.  It blends the two ratios linearly in the trust level and
adds the uncertainty inflation:
`guarantee = (1 − trust_level) · robustness_ratio
 + trust_level · consistency_ratio + f(uncertainty)`. -/
def guarantee (trust_level consistency_ratio robustness_ratio uncertainty : ℚ) : ℚ :=
  (1 - trust_level) * robustness_ratio + trust_level * consistency_ratio +
    uncertainty_penalty uncertainty

/-! ## Ski-rental strategy and Decision Engine state machine (spec §4.2, §4.4) -/

/-- Modelled from the spec: the `problem_params` of the ski-rental strategy
(`commit_cost` is `C`, `step_cost` is `r`), together with the configured
robust threshold `τ_robust` — a configuration constant of the strategy,
equal to `C / r` when no robust fallback is configured. -/
structure SkiRentalParams where
  commit_cost : ℚ
  step_cost : ℚ
  robust_threshold : ℚ
  deriving DecidableEq

/-- Modelled from the spec: the per-instance mutable `DecisionState` of the
ski-rental strategy (`current_step` is `t`; `committed` becomes true once the
action is `commit` and stays true thereafter). -/
structure DecisionState where
  current_step : ℕ
  committed : Bool
  deriving DecidableEq

/-- Modelled from the spec: the strategy-defined action enumeration of the
ski-rental strategy. -/
inductive Action where
  | commit
  | wait
  deriving DecidableEq

/-- Modelled from the spec: the `DecisionResult` emitted by a decision call
(the `problem_id` echo is omitted; it plays no role in the claims). -/
structure DecisionResult where
  action : Action
  prediction : ℚ
  uncertainty : ℚ
  guarantee : ℚ
  deriving DecidableEq

namespace SkiRental

/-- Modelled from the spec: `consistency_ratio` of the ski-rental strategy —
the competitive ratio achieved when the prediction is exactly correct, `1`
in the ideal case. -/
def consistency_ratio : ℚ := 1

/-- Modelled from the spec: `robustness_ratio` of the ski-rental strategy —
a fixed constant for the strategy family; we take the classical
deterministic rent-or-buy bound `2`. -/
def robustness_ratio : ℚ := 2

/-- Modelled from the spec: the trust-blended threshold step
`τ = trust_level · (C / r) + (1 − trust_level) · τ_robust`. -/
def threshold (p : SkiRentalParams) (trust_level : ℚ) : ℚ :=
  trust_level * (p.commit_cost / p.step_cost) +
    (1 - trust_level) * p.robust_threshold

/-- Modelled from the spec: `decide(prediction, uncertainty, trust_level,
state)` of the ski-rental strategy, composed with the Decision Engine's
state update; both are absent from the provided files.  A committed
instance is terminal and idempotently returns `commit` with guarantee `1`;
otherwise the instance commits when `current_step ≥ τ` or
`current_step · r ≥ C` (freezing further advancement), and waiting advances
`current_step` by one. -/
def decide (p : SkiRentalParams) (prediction uncertainty trust_level : ℚ)
    (s : DecisionState) : DecisionResult × DecisionState :=
  if s.committed then
    ({ action := .commit, prediction := prediction, uncertainty := uncertainty,
       guarantee := 1 }, s)
  else if threshold p trust_level ≤ (s.current_step : ℚ) ∨
      p.commit_cost ≤ (s.current_step : ℚ) * p.step_cost then
    ({ action := .commit, prediction := prediction, uncertainty := uncertainty,
       guarantee :=
         GuardianAI.guarantee trust_level consistency_ratio robustness_ratio
           uncertainty },
     { s with committed := true })
  else
    ({ action := .wait, prediction := prediction, uncertainty := uncertainty,
       guarantee :=
         GuardianAI.guarantee trust_level consistency_ratio robustness_ratio
           uncertainty },
     { s with current_step := s.current_step + 1 })

/-- Repeated decision calls on one instance, threading the `DecisionState`. -/
def decideN (p : SkiRentalParams) (prediction uncertainty trust_level : ℚ) :
    ℕ → DecisionState → DecisionState
  | 0, s => s
  | n + 1, s =>
      decideN p prediction uncertainty trust_level n
        (decide p prediction uncertainty trust_level s).2

end SkiRental

/-! ## Performance Tracker (spec §4.5) -/

/-- Modelled from the spec: one `PerformanceRecord` row per realized
decision (identity and timestamp omitted; they play no role in the
aggregates). -/
structure PerformanceRecord where
  algorithm_cost : ℚ
  optimal_cost : ℚ
  deriving DecidableEq

/-- Modelled from the spec: `realized_ratio = algorithm_cost / optimal_cost`. -/
def realized_ratio (r : PerformanceRecord) : ℚ :=
  r.algorithm_cost / r.optimal_cost

/-- Modelled from the spec: the derived `PerformanceSummary` aggregate. -/
structure PerformanceSummary where
  total_decisions : ℕ
  total_savings : ℚ
  average_competitive_ratio : ℚ
  deriving DecidableEq

/-- Modelled from the spec: `summarize` recomputes the aggregates by folding
over all records of the instance: the decision count, the total savings
`Σ (optimal_cost − algorithm_cost)`, and the mean realized ratio. -/
def summarize (records : List PerformanceRecord) : PerformanceSummary :=
  let total_decisions := records.foldl (fun n _ => n + 1) 0
  let total_savings :=
    records.foldl (fun acc r => acc + (r.optimal_cost - r.algorithm_cost)) 0
  let ratio_sum := records.foldl (fun acc r => acc + realized_ratio r) 0
  { total_decisions := total_decisions
    total_savings := total_savings
    average_competitive_ratio := ratio_sum / (total_decisions : ℚ) }

/-! ## Frontend: response shapes and field reads (spec §6, `src/frontend`, `src/unnamed`) -/

/-- Metric-level field names that occur in the performance-query response
shape or in the frontend components. -/
inductive MetricField where
  | total_decisions
  | total_savings
  | average_competitive_ratio
  | total_cost_algorithm
  | total_cost_optimal
  deriving DecidableEq

/-- Decision-row field names that occur in the performance-query response
shape or in the frontend components. -/
inductive DecisionRowField where
  | timestamp
  | cost
  | optimal_cost
  deriving DecidableEq

/-- Modelled from the spec: the metric fields of the outbound performance
query response `{metrics: {total_decisions, total_savings,
average_competitive_ratio}, decisions: [...]}` (§6); the backend serialiser
is absent from the provided files. -/
def responseMetricFields : List MetricField :=
  [.total_decisions, .total_savings, .average_competitive_ratio]

/-- Modelled from the spec: the fields of each element of the `decisions`
array of the outbound performance query response. -/
def responseDecisionFields : List DecisionRowField :=
  [.timestamp, .cost, .optimal_cost]

/-- Metric fields read by the `Dashboard` of `src/unnamed/part_001`:
`performance.metrics.total_savings` and
`performance.metrics.average_competitive_ratio`. -/
def dashboardMetricReads : List MetricField :=
  [.total_savings, .average_competitive_ratio]

/-- Metric fields read by the `Dashboard` of `src/frontend/src/Dashboard.js`:
`performanceData.metrics.total_decisions` and
`performanceData.metrics.total_savings`. -/
def problemsDashboardMetricReads : List MetricField :=
  [.total_decisions, .total_savings]

/-- Metric fields read by the bar `PerformanceChart` of
`src/unnamed/part_000`, whose `data` prop is `performance.metrics`:
`data.total_cost_algorithm` and `data.total_cost_optimal`. -/
def barChartMetricReads : List MetricField :=
  [.total_cost_algorithm, .total_cost_optimal]

/-- Decision-row fields read by the line `PerformanceChart` of
`src/frontend/src/PerformanceChart.js`, whose `data` prop is
`performanceData.decisions`: `timestamp`, `cost` and `optimal_cost`. -/
def lineChartDecisionReads : List DecisionRowField :=
  [.timestamp, .cost, .optimal_cost]

/-! ## Frontend: API client (`src/frontend/src/api.js`) -/

/-- The shape of a resolved axios response as far as the API client uses
it: only its `data` field is read. -/
structure HttpResponse (α : Type) where
  data : α

/-- The function `getDecision` of `src/frontend/src/api.js`.  The awaited
outcome of `axios.post` on the decide endpoint is passed in as an `Except`:
on success the function returns `response.data`; on failure it logs and
rethrows the same error (the `console.error` side effect does not affect
the value). -/
def getDecision {ε α : Type} (response : Except ε (HttpResponse α)) :
    Except ε α :=
  match response with
  | Except.ok r => Except.ok r.data
  | Except.error e => Except.error e

/-- The function `getPerformance` of `src/frontend/src/api.js`: the same
contract for the performance GET endpoint. -/
def getPerformance {ε α : Type} (response : Except ε (HttpResponse α)) :
    Except ε α :=
  match response with
  | Except.ok r => Except.ok r.data
  | Except.error e => Except.error e

/-! ## Frontend: Dashboard fetch and render (`src/unnamed/part_001`) -/

/-- The metrics object of the performance response as typed by the response
shape of spec §6. -/
structure PerformanceMetrics where
  total_decisions : ℕ
  total_savings : ℚ
  average_competitive_ratio : ℚ

/-- One element of the `decisions` array of the performance response. -/
structure DecisionRow where
  timestamp : String
  cost : ℚ
  optimal_cost : ℚ

/-- The performance-query response consumed by the `Dashboard`. -/
structure PerformanceResponse where
  metrics : PerformanceMetrics
  decisions : List DecisionRow

/-- The decision response consumed by the `Dashboard` of
`src/unnamed/part_001`; its `problem_id` field may be absent. -/
structure DecisionResponse where
  action : String
  prediction : ℚ
  uncertainty : ℚ
  guarantee : ℚ
  problem_id : Option String

/-- JavaScript truthiness of an optional string value: `undefined`/`null`
and the empty string are falsy, every other string is truthy. -/
def jsTruthy : Option String → Bool
  | none => false
  | some s => !s.isEmpty

/-- The conditional performance fetch inside `fetchData` of the `Dashboard`
of `src/unnamed/part_001`: the `performance` state starts as `null`, and
`getPerformance(decisionData.problem_id)` runs only under
`if (decisionData.problem_id)`.  The backend lookup is passed in as
`performanceOf`. -/
def fetchPerformance (decisionData : DecisionResponse)
    (performanceOf : String → PerformanceResponse) :
    Option PerformanceResponse :=
  match decisionData.problem_id with
  | some pid => if jsTruthy (some pid) then some (performanceOf pid) else none
  | none => none

/-- The two renderings of the historical-performance panel of the
`Dashboard` of `src/unnamed/part_001`: the metrics view (which dereferences
`performance.metrics`) and the fallback paragraph
`No performance data available.`. -/
inductive PerformancePanel where
  | metricsView (total_savings average_competitive_ratio : ℚ)
  | noData
  deriving DecidableEq

/-- The render of the performance panel: with `performance` set it
dereferences `performance.metrics.total_savings` and
`performance.metrics.average_competitive_ratio`; with `performance` still
`null` it renders the fallback paragraph. -/
def renderPerformancePanel : Option PerformanceResponse → PerformancePanel
  | some p =>
      PerformancePanel.metricsView p.metrics.total_savings
        p.metrics.average_competitive_ratio
  | none => PerformancePanel.noData

/-! ## Helper lemmas -/

/-- A decision call on a committed instance computes to the terminal
`commit` result with guarantee `1` and the unchanged state. -/
theorem decide_of_committed (p : SkiRentalParams)
    (prediction uncertainty trust_level : ℚ) (s : DecisionState)
    (h : s.committed = true) :
    SkiRental.decide p prediction uncertainty trust_level s =
      ({ action := .commit, prediction := prediction,
         uncertainty := uncertainty, guarantee := 1 }, s) := by
  unfold SkiRental.decide
  rw [h]
  simp

/-! ## Claims -/

/-- C1: for every valid input combination — `trust_level ∈ [0,1]`,
`uncertainty ≥ 0`, positive ski-rental costs, and any decision state —
the guarantee returned by a decision call is at least `1`. -/
theorem decide_guarantee_ge_one (p : SkiRentalParams)
    (prediction uncertainty trust_level : ℚ) (s : DecisionState)
    (hc : 0 < p.commit_cost) (hr : 0 < p.step_cost)
    (ht0 : 0 ≤ trust_level) (ht1 : trust_level ≤ 1) (hu : 0 ≤ uncertainty) :
    1 ≤ (SkiRental.decide p prediction uncertainty trust_level s).1.guarantee := by
  unfold SkiRental.decide
  split
  · norm_num
  · split <;>
    · simp only [guarantee, uncertainty_penalty, SkiRental.consistency_ratio,
        SkiRental.robustness_ratio]
      nlinarith

/-- Witness for C1 at `commit_cost = 500`, `step_cost = 10`,
`τ_robust = 50`, `prediction = 100`, `uncertainty = 5`, `trust_level = 1`,
state `(30, uncommitted)`. -/
theorem decide_guarantee_ge_one_witness :
    (0:ℚ) < 500 ∧ (0:ℚ) < 10 ∧ (0:ℚ) ≤ 1 ∧ (1:ℚ) ≤ 1 ∧ (0:ℚ) ≤ 5 ∧
    1 ≤ (SkiRental.decide ⟨500, 10, 50⟩ 100 5 1 ⟨30, false⟩).1.guarantee :=
  ⟨by decide, by decide, by decide, by decide, by decide,
    decide_guarantee_ge_one ⟨500, 10, 50⟩ 100 5 1 ⟨30, false⟩ (by decide)
      (by decide) (by decide) (by decide) (by decide)⟩

/-- C2 fails on the modelled Guarantee Calculator: at `trust_level = 0` and
`uncertainty = 1` (ski-rental ratios `consistency_ratio = 1`,
`robustness_ratio = 2`), the guarantee is `3`, not the `robustness_ratio`
`2` — the inflation term `f(uncertainty)` is added even at zero trust. -/
theorem guarantee_at_zero_trust_ne_robustness :
    guarantee 0 SkiRental.consistency_ratio SkiRental.robustness_ratio 1 ≠
      SkiRental.robustness_ratio := by
  simp only [guarantee, uncertainty_penalty, SkiRental.consistency_ratio,
    SkiRental.robustness_ratio]
  norm_num

/-- C2 (amended): at `trust_level = 0` the guarantee equals
`robustness_ratio + f(uncertainty)` for every consistency ratio and
uncertainty (so it is independent of the prediction and of the consistency
ratio); it equals `robustness_ratio` exactly when `uncertainty = 0`. -/
theorem guarantee_at_zero_trust
    (consistency_ratio robustness_ratio uncertainty : ℚ) :
    guarantee 0 consistency_ratio robustness_ratio uncertainty =
      robustness_ratio + uncertainty_penalty uncertainty ∧
    guarantee 0 consistency_ratio robustness_ratio 0 = robustness_ratio := by
  constructor <;>
  · simp only [guarantee, uncertainty_penalty]
    ring

/-- C3: at `trust_level = 1` and `uncertainty = 0` the guarantee equals the
strategy's `consistency_ratio`, for every parameterisation of the two
ratios. -/
theorem guarantee_full_trust_no_uncertainty
    (consistency_ratio robustness_ratio : ℚ) :
    guarantee 1 consistency_ratio robustness_ratio 0 = consistency_ratio := by
  simp only [guarantee, uncertainty_penalty]
  ring

/-- C4: the guarantee is monotonically non-decreasing in the uncertainty
(all other inputs fixed), and the inflation term satisfies `f(0) = 0`. -/
theorem guarantee_mono_uncertainty
    (trust_level consistency_ratio robustness_ratio u1 u2 : ℚ)
    (h : u1 ≤ u2) :
    guarantee trust_level consistency_ratio robustness_ratio u1 ≤
      guarantee trust_level consistency_ratio robustness_ratio u2 ∧
    uncertainty_penalty 0 = 0 := by
  refine ⟨?_, rfl⟩
  simp only [guarantee, uncertainty_penalty]
  linarith

/-- Witness for C4 at `trust_level = 1`, ratios `1` and `2`, uncertainties
`1 ≤ 2`. -/
theorem guarantee_mono_uncertainty_witness :
    (1:ℚ) ≤ 2 ∧
    (guarantee 1 1 2 1 ≤ guarantee 1 1 2 2 ∧ uncertainty_penalty 0 = 0) :=
  ⟨by decide, guarantee_mono_uncertainty 1 1 2 1 2 (by decide)⟩

/-- C5: a decision call on an already-committed instance returns
`action = commit` with `guarantee = 1` and leaves the `DecisionState`
unchanged, and any number of repeated calls leaves the state unchanged,
for any prediction, uncertainty and trust level. -/
theorem decide_committed_idempotent (p : SkiRentalParams)
    (prediction uncertainty trust_level : ℚ) (s : DecisionState)
    (h : s.committed = true) :
    (SkiRental.decide p prediction uncertainty trust_level s).1.action =
      Action.commit ∧
    (SkiRental.decide p prediction uncertainty trust_level s).1.guarantee = 1 ∧
    (SkiRental.decide p prediction uncertainty trust_level s).2 = s ∧
    ∀ n : ℕ, SkiRental.decideN p prediction uncertainty trust_level n s = s := by
  have hstep := decide_of_committed p prediction uncertainty trust_level s h
  refine ⟨by rw [hstep], by rw [hstep], by rw [hstep], ?_⟩
  intro n
  induction n with
  | zero => rfl
  | succ k ih =>
      show SkiRental.decideN p prediction uncertainty trust_level k
        (SkiRental.decide p prediction uncertainty trust_level s).2 = s
      rw [hstep]
      exact ih

/-- Witness for C5 on the committed state `(30, committed)`, including the
three-fold iteration. -/
theorem decide_committed_idempotent_witness :
    (⟨30, true⟩ : DecisionState).committed = true ∧
    (SkiRental.decide ⟨500, 10, 50⟩ 100 5 1 ⟨30, true⟩).1.action =
      Action.commit ∧
    (SkiRental.decide ⟨500, 10, 50⟩ 100 5 1 ⟨30, true⟩).1.guarantee = 1 ∧
    (SkiRental.decide ⟨500, 10, 50⟩ 100 5 1 ⟨30, true⟩).2 = ⟨30, true⟩ ∧
    SkiRental.decideN ⟨500, 10, 50⟩ 100 5 1 3 ⟨30, true⟩ = ⟨30, true⟩ := by
  have h := decide_committed_idempotent ⟨500, 10, 50⟩ 100 5 1 ⟨30, true⟩ rfl
  exact ⟨rfl, h.1, h.2.1, h.2.2.1, h.2.2.2 3⟩

/-- C6: on an uncommitted state, whenever
`current_step · step_cost ≥ commit_cost` the decision is `commit`, for
every trust level in `[0,1]` (the break-even disjunct of the decision rule
fires regardless of the blended threshold). -/
theorem decide_break_even_commits (p : SkiRentalParams)
    (prediction uncertainty trust_level : ℚ) (s : DecisionState)
    (ht0 : 0 ≤ trust_level) (ht1 : trust_level ≤ 1)
    (hs : s.committed = false)
    (h : p.commit_cost ≤ (s.current_step : ℚ) * p.step_cost) :
    (SkiRental.decide p prediction uncertainty trust_level s).1.action =
      Action.commit := by
  unfold SkiRental.decide
  rw [hs]
  simp only [Bool.false_eq_true, if_false]
  rw [if_pos (Or.inr h)]

/-- Witness for C6: `commit_cost = 500`, `step_cost = 10`,
`current_step = 60` (so `60 · 10 = 600 ≥ 500`), `trust_level = 1`. -/
theorem decide_break_even_commits_witness :
    (0:ℚ) ≤ 1 ∧ (1:ℚ) ≤ 1 ∧
    (⟨60, false⟩ : DecisionState).committed = false ∧
    (500:ℚ) ≤ (((⟨60, false⟩ : DecisionState).current_step : ℕ) : ℚ) * 10 ∧
    (SkiRental.decide ⟨500, 10, 50⟩ 100 5 1 ⟨60, false⟩).1.action =
      Action.commit :=
  ⟨by decide, by decide, rfl, by norm_num,
    decide_break_even_commits ⟨500, 10, 50⟩ 100 5 1 ⟨60, false⟩ (by decide)
      (by decide) rfl (by norm_num)⟩

/-- Folding addition of a mapped value over a list equals the accumulator
plus the sum of the mapped list. -/
theorem foldl_add_eq_sum {α : Type} (g : α → ℚ) (l : List α) :
    ∀ a : ℚ, l.foldl (fun acc x => acc + g x) a = a + (l.map g).sum := by
  induction l with
  | nil => intro a; simp
  | cons x l ih =>
      intro a
      simp only [List.foldl_cons, List.map_cons, List.sum_cons, ih, add_assoc]

/-- Folding a count over a list equals the accumulator plus the list's
length. -/
theorem foldl_count_eq_length {α : Type} (l : List α) :
    ∀ a : ℕ, l.foldl (fun n _ => n + 1) a = a + l.length := by
  induction l with
  | nil => intro a; simp
  | cons x l ih =>
      intro a
      simp only [List.foldl_cons, List.length_cons, ih]
      omega

/-- C7: for every record sequence, `summarize` reports the number of
records, the total savings `Σ (optimal_cost − algorithm_cost)` and the mean
realized ratio; on the single record `(algorithm_cost = 500,
optimal_cost = 450)` it reports one decision, savings `−50` and average
ratio `10/9 ≈ 1.111`. -/
theorem summarize_spec :
    (∀ records : List PerformanceRecord,
      (summarize records).total_decisions = records.length ∧
      (summarize records).total_savings =
        (records.map (fun r => r.optimal_cost - r.algorithm_cost)).sum ∧
      (summarize records).average_competitive_ratio =
        (records.map realized_ratio).sum / (records.length : ℚ)) ∧
    (summarize [⟨500, 450⟩]).total_decisions = 1 ∧
    (summarize [⟨500, 450⟩]).total_savings = -50 ∧
    (summarize [⟨500, 450⟩]).average_competitive_ratio = 10 / 9 := by
  have hgen : ∀ records : List PerformanceRecord,
      (summarize records).total_decisions = records.length ∧
      (summarize records).total_savings =
        (records.map (fun r => r.optimal_cost - r.algorithm_cost)).sum ∧
      (summarize records).average_competitive_ratio =
        (records.map realized_ratio).sum / (records.length : ℚ) := by
    intro records
    refine ⟨?_, ?_, ?_⟩
    · simp [summarize, foldl_count_eq_length]
    · simp [summarize, foldl_add_eq_sum]
    · simp [summarize, foldl_add_eq_sum, foldl_count_eq_length]
  refine ⟨hgen, (hgen [⟨500, 450⟩]).1, ?_, ?_⟩
  · rw [(hgen [⟨500, 450⟩]).2.1]
    norm_num
  · rw [(hgen [⟨500, 450⟩]).2.2]
    simp only [realized_ratio, List.map_cons, List.map_nil, List.sum_cons,
      List.sum_nil, List.length_cons, List.length_nil]
    norm_num

/-- C8 fails as stated: the bar `PerformanceChart` of `src/unnamed/part_000`
reads `metrics.total_cost_algorithm`, a field that is not part of the
declared performance-response shape. -/
theorem chart_reads_outside_response_shape :
    MetricField.total_cost_algorithm ∈ barChartMetricReads ∧
    MetricField.total_cost_algorithm ∉ responseMetricFields := by
  decide

/-- C8 (amended): every metric field read by either `Dashboard` and every
decision-row field read by the line chart lies within the declared response
shape, but the bar chart's two metric reads (`total_cost_algorithm`,
`total_cost_optimal`) lie outside it. -/
theorem frontend_reads_vs_response_shape :
    dashboardMetricReads ⊆ responseMetricFields ∧
    problemsDashboardMetricReads ⊆ responseMetricFields ∧
    lineChartDecisionReads ⊆ responseDecisionFields ∧
    MetricField.total_cost_optimal ∈ barChartMetricReads ∧
    MetricField.total_cost_optimal ∉ responseMetricFields := by
  refine ⟨?_, ?_, ?_, by decide, by decide⟩ <;> decide

/-- C9: the API client of `src/frontend/src/api.js` never swallows a
failure and never rewraps a success: both `getDecision` and
`getPerformance` rethrow a rejected request's error unchanged, and on
success return exactly `response.data`. -/
theorem api_client_propagates_errors :
    ∀ (ε α : Type) (e : ε) (r : HttpResponse α),
      getDecision (Except.error e : Except ε (HttpResponse α)) =
        Except.error e ∧
      getDecision (Except.ok r : Except ε (HttpResponse α)) =
        Except.ok r.data ∧
      getPerformance (Except.error e : Except ε (HttpResponse α)) =
        Except.error e ∧
      getPerformance (Except.ok r : Except ε (HttpResponse α)) =
        Except.ok r.data := by
  intro ε α e r
  exact ⟨rfl, rfl, rfl, rfl⟩

/-- C10: in the `Dashboard` of `src/unnamed/part_001`, when the decision
response's `problem_id` is not truthy, no performance lookup happens (the
`performance` state stays `null` for every possible backend), and the
panel renders the `No performance data available.` fallback instead of
dereferencing the missing metrics. -/
theorem no_problem_id_renders_fallback (decisionData : DecisionResponse)
    (performanceOf : String → PerformanceResponse)
    (h : jsTruthy decisionData.problem_id = false) :
    fetchPerformance decisionData performanceOf = none ∧
    renderPerformancePanel (fetchPerformance decisionData performanceOf) =
      PerformancePanel.noData := by
  have hfetch : fetchPerformance decisionData performanceOf = none := by
    unfold fetchPerformance
    cases hp : decisionData.problem_id with
    | none => rfl
    | some pid =>
        rw [hp] at h
        simp [h]
  exact ⟨hfetch, by rw [hfetch]; rfl⟩

/-- Witness for C10: a decision response with `problem_id` absent and a
constant backend. -/
theorem no_problem_id_renders_fallback_witness :
    jsTruthy (⟨"wait", 100, 5, 2, none⟩ : DecisionResponse).problem_id =
      false ∧
    fetchPerformance ⟨"wait", 100, 5, 2, none⟩
      (fun _ => ⟨⟨0, 0, 0⟩, []⟩) = none ∧
    renderPerformancePanel
      (fetchPerformance ⟨"wait", 100, 5, 2, none⟩
        (fun _ => ⟨⟨0, 0, 0⟩, []⟩)) = PerformancePanel.noData := by
  have h := no_problem_id_renders_fallback ⟨"wait", 100, 5, 2, none⟩
    (fun _ => ⟨⟨0, 0, 0⟩, []⟩) rfl
  exact ⟨rfl, h.1, h.2⟩

end GuardianAI
